import Mathlib

/-!
Shallow embedding of the RevBot memory server (the persistent entity store
plus its autonomous decision engine) and proofs about its operations.

Conventions of the embedding:
* JS `number` values carrying money, metrics and scores are modelled as `ℚ`;
  timestamps (milliseconds since epoch) as `Int`.
* `uuidv4()` results and the two `Date.now()`/`new Date().setHours(0,0,0,0)`
  readings inside one operation are passed in as explicit parameters
  (`id`, `now`, `todayStart`).
* `fs.writeFileSync` inside `saveData` is observed by a `writes` counter on
  the server state; `lastAutoSave` mirrors the field of the same name.
* JS truthiness on optional numbers/strings (the `x || d` idiom) is modelled
  by `jsOrQ` / `jsOrStr`; `x !== undefined` guards by `Option.getD`.
* Operations whose source body can `throw` return `Except String`.
-/

namespace RevBot

/-- JS `x || d` on an optional number: `undefined` and `0` are falsy. -/
def jsOrQ (x : Option ℚ) (d : ℚ) : ℚ :=
  match x with
  | none => d
  | some v => if v = 0 then d else v

/-- JS `x || d` on an optional string: `undefined` and `""` are falsy. -/
def jsOrStr (x : Option String) (d : String) : String :=
  match x with
  | none => d
  | some s => if s = "" then d else s

/-- JS `String.prototype.toLowerCase` (ASCII fragment). -/
def toLowerCase (s : String) : String :=
  ⟨s.data.map Char.toLower⟩

/-- Whether the first list is an initial segment of the second. -/
def isPrefixL : List Char → List Char → Bool
  | [], _ => true
  | _ :: _, [] => false
  | a :: as, b :: bs => a == b && isPrefixL as bs

/-- Whether `pat` occurs contiguously inside `text`. -/
def isInfixL (pat : List Char) : List Char → Bool
  | [] => isPrefixL pat []
  | c :: rest => isPrefixL pat (c :: rest) || isInfixL pat rest

/-- JS `text.includes(pat)`: substring test. -/
def strIncludes (text pat : String) : Bool :=
  isInfixL pat.data text.data

/-- Service lifecycle status (source union `'active'|'paused'|'killed'|'scaling'`). -/
inductive ServiceStatus
  | active
  | paused
  | killed
  | scaling
deriving DecidableEq, Repr

/-- Decision outcome (source union `'approved'|'denied'|'pending'|'auto_approved'`). -/
inductive Outcome
  | approved
  | denied
  | pending
  | auto_approved
deriving DecidableEq, Repr

/-- Three-valued level used for risk, competition and effort. -/
inductive RiskLevel
  | low
  | medium
  | high
deriving DecidableEq, Repr

/-- Blocker/discovery severity (source union `'low'|'medium'|'high'|'critical'`). -/
inductive Severity
  | low
  | medium
  | high
  | critical
deriving DecidableEq, Repr

/-- Blocker lifecycle status. -/
inductive BlockerStatus
  | identified
  | investigating
  | resolved
  | escalated
deriving DecidableEq, Repr

/-- Blocker category. -/
inductive BlockerType
  | technical
  | dependency
  | configuration
  | access
  | knowledge_gap
deriving DecidableEq, Repr

/-- Market opportunity lifecycle status. -/
inductive OpportunityStatus
  | discovered
  | analyzing
  | implementing
  | deployed
  | failed
deriving DecidableEq, Repr

/-- Conversation context classification. -/
inductive ContextType
  | planning
  | implementation
  | debugging
  | decision
  | analysis
deriving DecidableEq, Repr

/-- Discovery category used by `logTechnicalDiscovery`. -/
inductive DiscoveryType
  | code_exists
  | configuration_needed
  | dependency_ready
  | service_built
  | blocker_found
deriving DecidableEq, Repr

/-- Trigger selector of `autoCaptureContext`. -/
inductive TriggerType
  | decision_made
  | blocker_found
  | technical_discovery
deriving DecidableEq, Repr

/-- Source `Service.performance_metrics`. -/
structure PerformanceMetrics where
  uptime_percentage : ℚ
  response_time_ms : ℚ
  error_rate : ℚ
  customer_satisfaction : ℚ
deriving DecidableEq, Repr

/-- Source `Service.scaling_config`. -/
structure ScalingConfig where
  auto_scale : Bool
  max_daily_spend : ℚ
  kill_threshold : ℚ
deriving DecidableEq, Repr

/-- Source `interface Service` (the TS field `type` is `stype` here: `type`
is a Lean keyword). -/
structure Service where
  id : String
  name : String
  stype : String
  status : ServiceStatus
  created_at : Int
  daily_revenue : ℚ
  daily_costs : ℚ
  customer_count : ℚ
  performance_metrics : PerformanceMetrics
  scaling_config : ScalingConfig
  updated_at : Int
deriving DecidableEq, Repr

/-- Source `interface Transaction` (the free-form `metadata` record is modelled
as a string association list). -/
structure Transaction where
  id : String
  service_id : String
  amount : ℚ
  currency : String
  customer_id : Option String
  timestamp : Int
  stripe_transaction_id : Option String
  metadata : List (String × String)
deriving DecidableEq, Repr

/-- Source `Decision.impact_metrics`. -/
structure ImpactMetrics where
  revenue_impact : ℚ
  risk_level : RiskLevel
  confidence_score : ℚ
deriving DecidableEq, Repr

/-- Source `interface Decision`. -/
structure Decision where
  id : String
  timestamp : Int
  decision_type : String
  context : String
  reasoning : String
  outcome : Outcome
  revenue_impact : Option ℚ
  risk_level : Option RiskLevel
  confidence_score : Option ℚ
  impact_metrics : ImpactMetrics
deriving DecidableEq, Repr

/-- Source `interface MarketOpportunity` (free-form `analysis_data` modelled as
a string association list). -/
structure MarketOpportunity where
  id : String
  opportunity_type : String
  market_size : Option ℚ
  competition_level : Option RiskLevel
  profit_potential : Option ℚ
  implementation_effort : Option RiskLevel
  discovery_source : Option String
  analysis_data : List (String × String)
  status : OpportunityStatus
  created_at : Int
deriving DecidableEq, Repr

/-- Source `interface Customer`. -/
structure Customer where
  id : String
  email : Option String
  first_transaction : Int
  total_spent : ℚ
  service_usage : List (String × String)
  satisfaction_score : ℚ
  churn_risk : ℚ
  created_at : Int
  updated_at : Int
deriving DecidableEq, Repr

/-- Source `ConversationTurn.extracted_entities`. -/
structure ExtractedEntities where
  tasks_mentioned : List String
  technologies_discussed : List String
  decisions_made : List String
  blockers_identified : List String
deriving DecidableEq, Repr

/-- Source `interface ConversationTurn`. -/
structure ConversationTurn where
  id : String
  session_id : String
  timestamp : Int
  user_input : String
  ai_response : String
  context_type : ContextType
  extracted_entities : ExtractedEntities
  importance_score : ℚ
deriving DecidableEq, Repr

/-- Source `interface TechnicalDiscovery`. -/
structure TechnicalDiscovery where
  id : String
  timestamp : Int
  discovery_type : DiscoveryType
  title : String
  description : String
  file_path : Option String
  impact_level : Severity
  actionable_insights : List String
  related_conversation_turn_id : Option String
deriving DecidableEq, Repr

/-- Source `interface Blocker`. -/
structure Blocker where
  id : String
  timestamp : Int
  title : String
  description : String
  blocker_type : BlockerType
  severity : Severity
  status : BlockerStatus
  resolution_steps : List String
  resolution_summary : Option String
deriving DecidableEq, Repr

/-- Source `interface ProgressMilestone`. -/
structure ProgressMilestone where
  id : String
  timestamp : Int
  milestone_type : String
  title : String
  description : String
  completion_percentage : ℚ
  next_steps : List String
deriving DecidableEq, Repr

/-- Source `BusinessState.risk_metrics`. -/
structure RiskMetrics where
  daily_spend : ℚ
  service_failures : ℚ
  customer_complaints : ℚ
deriving DecidableEq, Repr

/-- Source `interface BusinessState` (the `any[]` payloads are modelled as
string lists). -/
structure BusinessState where
  id : String
  timestamp : Int
  total_revenue : ℚ
  active_services : Nat
  pending_decisions : List String
  current_priorities : List String
  session_summary : String
  optimization_strategies : List String
  risk_metrics : RiskMetrics
deriving DecidableEq, Repr

/-- Source `RevBotData.session_metadata`. -/
structure SessionMetadata where
  current_session_id : String
  session_start : Int
  last_activity : Int
  auto_save_enabled : Bool
deriving DecidableEq, Repr

/-- Source `interface RevBotData`: the whole in-memory entity graph. -/
structure RevBotData where
  business_states : List BusinessState
  services : List Service
  transactions : List Transaction
  decisions : List Decision
  market_opportunities : List MarketOpportunity
  customers : List Customer
  conversation_turns : List ConversationTurn
  technical_discoveries : List TechnicalDiscovery
  blockers : List Blocker
  progress_milestones : List ProgressMilestone
  session_metadata : SessionMetadata
deriving DecidableEq, Repr

/-- The `RevBotMemoryServer` instance state relevant to the claims: the data
graph, the `lastAutoSave` field, and a counter of `fs.writeFileSync` calls
performed by `saveData` (observing durable-storage writes). -/
structure ServerState where
  data : RevBotData
  lastAutoSave : Int
  writes : Nat
deriving DecidableEq, Repr

/-- Source `saveData`: sets `session_metadata.last_activity` to the current
time, performs one `fs.writeFileSync` of the whole graph (observed by the
`writes` counter) and records the save time in `lastAutoSave`. -/
def saveData (st : ServerState) (now : Int) : ServerState :=
  { st with
    data := { st.data with
      session_metadata := { st.data.session_metadata with last_activity := now } },
    lastAutoSave := now,
    writes := st.writes + 1 }

/-- Source `startAutoSaveTimer` callback, one tick: every 10000 ms the timer
fires and saves when more than 30000 ms passed since the last save and
auto-save is enabled. -/
def autoSaveTick (st : ServerState) (now : Int) : ServerState :=
  if now - st.lastAutoSave > 30000 ∧ st.data.session_metadata.auto_save_enabled then
    saveData st now
  else
    st

/-- Source `stop`: stops the timer and performs one final unconditional save. -/
def stopServer (st : ServerState) (now : Int) : ServerState :=
  saveData st now

/-- The empty data graph with fresh session metadata, as initialized by
`loadData` when the file is missing or unreadable. -/
def emptyRevBotData (sessionId : String) (now : Int) : RevBotData :=
  { business_states := []
    services := []
    transactions := []
    decisions := []
    market_opportunities := []
    customers := []
    conversation_turns := []
    technical_discoveries := []
    blockers := []
    progress_milestones := []
    session_metadata :=
      { current_session_id := sessionId
        session_start := now
        last_activity := now
        auto_save_enabled := true } }

/-- The three conditions `loadData` distinguishes: no file on disk, a file
whose payload `JSON.parse` rejects, and a readable image. -/
inductive PersistedImage
  | missing
  | malformed
  | readable (d : RevBotData)
deriving DecidableEq, Repr

/-- Source `loadData`: a readable image is loaded as-is; a missing file
initializes the empty graph and saves it; a malformed payload lands in the
`catch` block and initializes the empty graph without saving. It never
fails. -/
def loadData (img : PersistedImage) (sessionId : String) (now : Int) : ServerState :=
  match img with
  | .readable d => { data := d, lastAutoSave := now, writes := 0 }
  | .missing => saveData { data := emptyRevBotData sessionId now, lastAutoSave := now, writes := 0 } now
  | .malformed => { data := emptyRevBotData sessionId now, lastAutoSave := now, writes := 0 }

/-- Replace the first element satisfying `p` (JS `findIndex` + in-place
mutation of the found object). -/
def updateFirst (p : α → Bool) (f : α → α) : List α → List α
  | [] => []
  | x :: xs => if p x then f x :: xs else x :: updateFirst p f xs

/-- Argument record of `logDecisionInternal`. -/
structure DecisionInput where
  decision_type : String
  context : String
  reasoning : String
  outcome : Outcome
  revenue_impact : Option ℚ
  risk_level : Option RiskLevel
  confidence_score : Option ℚ
deriving DecidableEq, Repr

/-- The `Decision` record built by `logDecisionInternal` (note the JS `||`
defaults inside `impact_metrics`). -/
def mkDecision (di : DecisionInput) (id : String) (now : Int) : Decision :=
  { id := id
    timestamp := now
    decision_type := di.decision_type
    context := di.context
    reasoning := di.reasoning
    outcome := di.outcome
    revenue_impact := di.revenue_impact
    risk_level := di.risk_level
    confidence_score := di.confidence_score
    impact_metrics :=
      { revenue_impact := jsOrQ di.revenue_impact 0
        risk_level := di.risk_level.getD RiskLevel.medium
        confidence_score := jsOrQ di.confidence_score (1/2) } }

/-- Source `logDecisionInternal`: append the decision record and save. -/
def logDecisionInternal (st : ServerState) (di : DecisionInput) (id : String) (now : Int) : ServerState :=
  saveData
    { st with data := { st.data with decisions := st.data.decisions ++ [mkDecision di id now] } }
    now

/-- Arguments of the `log_decision` tool (outcome defaults to `pending`). -/
structure LogDecisionArgs where
  decision_type : String
  context : String
  reasoning : String
  outcome : Option Outcome
  revenue_impact : Option ℚ
  risk_level : Option RiskLevel
  confidence_score : Option ℚ
deriving DecidableEq, Repr

/-- Source `logDecision` handler. -/
def logDecision (st : ServerState) (args : LogDecisionArgs) (id : String) (now : Int) : ServerState :=
  logDecisionInternal st
    { decision_type := args.decision_type
      context := args.context
      reasoning := args.reasoning
      outcome := args.outcome.getD Outcome.pending
      revenue_impact := args.revenue_impact
      risk_level := args.risk_level
      confidence_score := args.confidence_score }
    id now

/-- Arguments of the `register_service` tool. -/
structure RegisterServiceArgs where
  name : String
  stype : String
  max_daily_spend : Option ℚ
  auto_scale : Option Bool
deriving DecidableEq, Repr

/-- Source `registerService`: push a fresh `active` service with default
metrics and scaling configuration (`auto_scale: args.auto_scale !== false`,
`max_daily_spend: args.max_daily_spend || 100`, `kill_threshold: -10`),
then save. -/
def registerService (st : ServerState) (args : RegisterServiceArgs) (id : String) (now : Int) : ServerState :=
  let service : Service :=
    { id := id
      name := args.name
      stype := args.stype
      status := ServiceStatus.active
      created_at := now
      daily_revenue := 0
      daily_costs := 0
      customer_count := 0
      performance_metrics :=
        { uptime_percentage := 100
          response_time_ms := 0
          error_rate := 0
          customer_satisfaction := 5 }
      scaling_config :=
        { auto_scale := args.auto_scale != some false
          max_daily_spend := jsOrQ args.max_daily_spend 100
          kill_threshold := -10 }
      updated_at := now }
  saveData { st with data := { st.data with services := st.data.services ++ [service] } } now

/-- Optional metric overrides of `update_service_performance`. -/
structure PerfMetricsArgs where
  uptime_percentage : Option ℚ
  response_time_ms : Option ℚ
  error_rate : Option ℚ
  customer_satisfaction : Option ℚ
deriving DecidableEq, Repr

/-- Arguments of the `update_service_performance` tool. -/
structure UpdatePerformanceArgs where
  service_id : String
  daily_revenue : Option ℚ
  daily_costs : Option ℚ
  customer_count : Option ℚ
  performance_metrics : Option PerfMetricsArgs
deriving DecidableEq, Repr

/-- The `!== undefined` field-by-field metric updates of
`updateServicePerformance`. -/
def applyMetricsArgs (m : PerfMetricsArgs) (pm : PerformanceMetrics) : PerformanceMetrics :=
  { uptime_percentage := m.uptime_percentage.getD pm.uptime_percentage
    response_time_ms := m.response_time_ms.getD pm.response_time_ms
    error_rate := m.error_rate.getD pm.error_rate
    customer_satisfaction := m.customer_satisfaction.getD pm.customer_satisfaction }

/-- The counter/metric updates of `updateServicePerformance` applied to the
found service, including `updated_at = Date.now()`. -/
def applyPerfArgs (args : UpdatePerformanceArgs) (now : Int) (s : Service) : Service :=
  { s with
    daily_revenue := args.daily_revenue.getD s.daily_revenue
    daily_costs := args.daily_costs.getD s.daily_costs
    customer_count := args.customer_count.getD s.customer_count
    performance_metrics :=
      match args.performance_metrics with
      | none => s.performance_metrics
      | some m => applyMetricsArgs m s.performance_metrics
    updated_at := now }

/-- The `auto_kill_service` decision input logged by rule 1 of the
auto-scaling logic. -/
def killDecisionInput (s : Service) (dailyProfit : ℚ) : DecisionInput :=
  { decision_type := "auto_kill_service"
    context := "Service " ++ s.name ++ " killed due to low profitability: $"
      ++ toString dailyProfit ++ "/day"
    reasoning := "Daily profit ($" ++ toString dailyProfit ++ ") below kill threshold ($"
      ++ toString s.scaling_config.kill_threshold ++ ")"
    outcome := Outcome.auto_approved
    revenue_impact := some dailyProfit
    risk_level := some RiskLevel.low
    confidence_score := some (9/10) }

/-- The `auto_scale_service` decision input logged by rule 2 of the
auto-scaling logic (`revenue_impact: dailyProfit * 2`). -/
def scaleDecisionInput (s : Service) (dailyProfit : ℚ) : DecisionInput :=
  { decision_type := "auto_scale_service"
    context := "Service " ++ s.name ++ " marked for scaling due to high profitability: $"
      ++ toString dailyProfit ++ "/day"
    reasoning := "Daily profit ($" ++ toString dailyProfit
      ++ ") indicates strong demand and scalability potential"
    outcome := Outcome.auto_approved
    revenue_impact := some (dailyProfit * 2)
    risk_level := some RiskLevel.medium
    confidence_score := some (7/10) }

/-- The auto-scaling block of `updateServicePerformance`: when `auto_scale`
is set, rule 1 (`dailyProfit < kill_threshold`) kills the service, else
rule 2 (`dailyProfit > 50 && status === 'active'`) marks it scaling; the
accompanying decision input, if any, is returned alongside. -/
def runAutoScale (s : Service) : Service × Option DecisionInput :=
  if s.scaling_config.auto_scale then
    let dailyProfit := s.daily_revenue - s.daily_costs
    if dailyProfit < s.scaling_config.kill_threshold then
      ({ s with status := ServiceStatus.killed }, some (killDecisionInput s dailyProfit))
    else if dailyProfit > 50 ∧ s.status = ServiceStatus.active then
      ({ s with status := ServiceStatus.scaling }, some (scaleDecisionInput s dailyProfit))
    else
      (s, none)
  else
    (s, none)

/-- Source `updateServicePerformance`: find the service (`NotFound` error if
absent), apply the field updates, run the auto-scaling rules (logging the
triggered decision, which itself saves), and save. -/
def updateServicePerformance (st : ServerState) (args : UpdatePerformanceArgs)
    (decisionId : String) (now : Int) : Except String ServerState :=
  match st.data.services.find? (fun s => s.id == args.service_id) with
  | none => Except.error ("Service not found: " ++ args.service_id)
  | some s =>
    let s1 := applyPerfArgs args now s
    let res := runAutoScale s1
    let st1 := { st with data := { st.data with
      services := updateFirst (fun x => x.id == args.service_id) (fun _ => res.1) st.data.services } }
    let st2 :=
      match res.2 with
      | some di => logDecisionInternal st1 di decisionId now
      | none => st1
    Except.ok (saveData st2 now)

/-- Sum of transaction amounts, as the source `reduce((sum, t) => sum + t.amount, 0)`. -/
def sumAmounts (l : List Transaction) : ℚ :=
  l.foldl (fun sum t => sum + t.amount) 0

/-- Arguments of the `record_transaction` tool. -/
structure RecordTransactionArgs where
  service_id : String
  amount : ℚ
  currency : Option String
  customer_id : Option String
  stripe_transaction_id : Option String
  metadata : Option (List (String × String))
deriving DecidableEq, Repr

/-- The `Transaction` record `recordTransaction` pushes
(`currency: args.currency || 'USD'`, `metadata: args.metadata || ...`). -/
def mkTransaction (args : RecordTransactionArgs) (txId : String) (now : Int) : Transaction :=
  { id := txId
    service_id := args.service_id
    amount := args.amount
    currency := jsOrStr args.currency "USD"
    customer_id := args.customer_id
    timestamp := now
    stripe_transaction_id := args.stripe_transaction_id
    metadata := args.metadata.getD [] }

/-- Source `recordTransaction`: append the transaction and save; then, only
if a service with the given id exists, recompute that service's
`daily_revenue` as the sum of its transactions with `timestamp >= todayStart`
(the local-midnight reading `new Date().setHours(0,0,0,0)`) and save again.
The body never throws, so the result is always `Except.ok`. -/
def recordTransaction (st : ServerState) (args : RecordTransactionArgs)
    (txId : String) (now todayStart : Int) : Except String ServerState :=
  let tx := mkTransaction args txId now
  let st1 := saveData { st with data := { st.data with transactions := st.data.transactions ++ [tx] } } now
  match st1.data.services.find? (fun s => s.id == args.service_id) with
  | none => Except.ok st1
  | some _ =>
    let todayRevenue := sumAmounts (st1.data.transactions.filter
      (fun t => t.service_id == args.service_id && decide (t.timestamp ≥ todayStart)))
    Except.ok (saveData
      { st1 with data := { st1.data with
        services := updateFirst (fun s => s.id == args.service_id)
          (fun s => { s with daily_revenue := todayRevenue, updated_at := now }) st1.data.services } }
      now)

/-- Arguments of the `save_business_state` tool. -/
structure BusinessStateArgs where
  session_summary : String
  current_priorities : Option (List String)
  pending_decisions : Option (List String)
  optimization_strategies : Option (List String)
deriving DecidableEq, Repr

/-- Source `saveBusinessState`: append a snapshot record (revenue of today's
transactions, count of active services, zeroed risk metrics) and save. -/
def saveBusinessState (st : ServerState) (args : BusinessStateArgs)
    (id : String) (now todayStart : Int) : ServerState :=
  let todayRevenue := sumAmounts (st.data.transactions.filter (fun t => decide (t.timestamp ≥ todayStart)))
  let activeServices := (st.data.services.filter (fun s => decide (s.status = ServiceStatus.active))).length
  let businessState : BusinessState :=
    { id := id
      timestamp := now
      total_revenue := todayRevenue
      active_services := activeServices
      pending_decisions := args.pending_decisions.getD []
      current_priorities := args.current_priorities.getD []
      session_summary := args.session_summary
      optimization_strategies := args.optimization_strategies.getD []
      risk_metrics := { daily_spend := 0, service_failures := 0, customer_complaints := 0 } }
  saveData { st with data := { st.data with business_states := st.data.business_states ++ [businessState] } } now

/-- Arguments of the `record_market_opportunity` tool. -/
structure MarketOpportunityArgs where
  opportunity_type : String
  market_size : Option ℚ
  competition_level : Option RiskLevel
  profit_potential : Option ℚ
  implementation_effort : Option RiskLevel
  discovery_source : Option String
  analysis_data : Option (List (String × String))
deriving DecidableEq, Repr

/-- Source `recordMarketOpportunity`: append the opportunity with status
`discovered` and save. -/
def recordMarketOpportunity (st : ServerState) (args : MarketOpportunityArgs)
    (id : String) (now : Int) : ServerState :=
  let opportunity : MarketOpportunity :=
    { id := id
      opportunity_type := args.opportunity_type
      market_size := args.market_size
      competition_level := args.competition_level
      profit_potential := args.profit_potential
      implementation_effort := args.implementation_effort
      discovery_source := args.discovery_source
      analysis_data := args.analysis_data.getD []
      status := OpportunityStatus.discovered
      created_at := now }
  saveData { st with data := { st.data with
    market_opportunities := st.data.market_opportunities ++ [opportunity] } } now

/-- Arguments of the `log_blocker` tool. -/
structure LogBlockerArgs where
  title : String
  description : String
  blocker_type : BlockerType
  severity : Option Severity
  resolution_steps : Option (List String)
deriving DecidableEq, Repr

/-- Source `logBlocker`: append a blocker with status `identified`
(`severity: args.severity || 'medium'`, `resolution_steps: ... || []`) and
save. -/
def logBlocker (st : ServerState) (args : LogBlockerArgs) (id : String) (now : Int) : ServerState :=
  let blocker : Blocker :=
    { id := id
      timestamp := now
      title := args.title
      description := args.description
      blocker_type := args.blocker_type
      severity := args.severity.getD Severity.medium
      status := BlockerStatus.identified
      resolution_steps := args.resolution_steps.getD []
      resolution_summary := none }
  saveData { st with data := { st.data with blockers := st.data.blockers ++ [blocker] } } now

/-- Source `resolveBlocker`: `NotFound` error for an unknown id; otherwise
unconditionally set the found blocker's status to `resolved`, store the
resolution summary and save. An error returns no new state, so the store is
unchanged in that case. -/
def resolveBlocker (st : ServerState) (blockerId resolutionSummary : String)
    (now : Int) : Except String ServerState :=
  match st.data.blockers.find? (fun b => b.id == blockerId) with
  | none => Except.error ("Blocker not found: " ++ blockerId)
  | some _ =>
    Except.ok (saveData
      { st with data := { st.data with
        blockers := updateFirst (fun b => b.id == blockerId)
          (fun b => { b with
            status := BlockerStatus.resolved
            resolution_summary := some resolutionSummary }) st.data.blockers } }
      now)

/-- Arguments of the `log_technical_discovery` tool. -/
structure LogDiscoveryArgs where
  discovery_type : DiscoveryType
  title : String
  description : String
  file_path : Option String
  impact_level : Option Severity
  actionable_insights : Option (List String)
  related_conversation_turn_id : Option String
deriving DecidableEq, Repr

/-- Source `logTechnicalDiscovery`: append the discovery and save. -/
def logTechnicalDiscovery (st : ServerState) (args : LogDiscoveryArgs)
    (id : String) (now : Int) : ServerState :=
  let discovery : TechnicalDiscovery :=
    { id := id
      timestamp := now
      discovery_type := args.discovery_type
      title := args.title
      description := args.description
      file_path := args.file_path
      impact_level := args.impact_level.getD Severity.medium
      actionable_insights := args.actionable_insights.getD []
      related_conversation_turn_id := args.related_conversation_turn_id }
  saveData { st with data := { st.data with
    technical_discoveries := st.data.technical_discoveries ++ [discovery] } } now

/-- Arguments of the `log_progress_milestone` tool. -/
structure LogMilestoneArgs where
  milestone_type : String
  title : String
  description : String
  completion_percentage : Option ℚ
  next_steps : Option (List String)
deriving DecidableEq, Repr

/-- Source `logProgressMilestone`: append the milestone and save. -/
def logProgressMilestone (st : ServerState) (args : LogMilestoneArgs)
    (id : String) (now : Int) : ServerState :=
  let milestone : ProgressMilestone :=
    { id := id
      timestamp := now
      milestone_type := args.milestone_type
      title := args.title
      description := args.description
      completion_percentage := args.completion_percentage.getD 0
      next_steps := args.next_steps.getD [] }
  saveData { st with data := { st.data with
    progress_milestones := st.data.progress_milestones ++ [milestone] } } now

/-- Source keyword vocabulary for task extraction. -/
def taskKeywords : List String :=
  ["implement", "build", "create", "deploy", "setup", "configure", "test", "fix"]

/-- Source keyword vocabulary for technology extraction. -/
def techKeywords : List String :=
  ["stripe", "mcp", "server", "api", "webhook", "payment", "revbot", "nodejs", "typescript"]

/-- Source keyword vocabulary for decision extraction. -/
def decisionKeywords : List String :=
  ["decided", "choose", "selected", "approved", "skip", "use", "go with"]

/-- Source keyword vocabulary for blocker extraction. -/
def blockerKeywords : List String :=
  ["error", "failed", "blocked", "issue", "problem", "cannot", "unable", "stuck"]

/-- Source `extractKeywords`: keep the keywords occurring in the text. -/
def extractKeywords (text : String) (keywords : List String) : List String :=
  keywords.filter (fun keyword => strIncludes text keyword)

/-- The lowercased concatenation of both sides of the interaction, as built
by each of the extraction helpers. -/
def combinedText (userInput aiResponse : String) : String :=
  toLowerCase (userInput ++ " " ++ aiResponse)

/-- Source `extractEntitiesFromConversation`. -/
def extractEntitiesFromConversation (userInput aiResponse : String) : ExtractedEntities :=
  let combined := combinedText userInput aiResponse
  { tasks_mentioned := extractKeywords combined taskKeywords
    technologies_discussed := extractKeywords combined techKeywords
    decisions_made := extractKeywords combined decisionKeywords
    blockers_identified := extractKeywords combined blockerKeywords }

/-- Source `inferContextType`: first-match keyword-family cascade with
`analysis` as default. -/
def inferContextType (userInput aiResponse : String) : ContextType :=
  let combined := combinedText userInput aiResponse
  if strIncludes combined "plan" || strIncludes combined "strategy"
      || strIncludes combined "roadmap" then
    ContextType.planning
  else if strIncludes combined "build" || strIncludes combined "implement"
      || strIncludes combined "deploy" then
    ContextType.implementation
  else if strIncludes combined "error" || strIncludes combined "debug"
      || strIncludes combined "fix" then
    ContextType.debugging
  else if strIncludes combined "decide" || strIncludes combined "choose"
      || strIncludes combined "approve" then
    ContextType.decision
  else
    ContextType.analysis

/-- Source `calculateImportanceScore`: base 0.3, fixed increments, capped
at 1.0. -/
def calculateImportanceScore (userInput aiResponse : String) : ℚ :=
  let combined := combinedText userInput aiResponse
  let score : ℚ := 3/10
  let score := if strIncludes combined "critical" || strIncludes combined "urgent" then
    score + 3/10 else score
  let score := if strIncludes combined "revenue" || strIncludes combined "payment"
      || strIncludes combined "money" then score + 1/5 else score
  let score := if strIncludes combined "decision" || strIncludes combined "approve" then
    score + 1/5 else score
  let score := if strIncludes combined "blocker" || strIncludes combined "error"
      || strIncludes combined "problem" then score + 1/5 else score
  let score := if strIncludes combined "complete" || strIncludes combined "finished"
      || strIncludes combined "done" then score + 1/10 else score
  min score 1

/-- The decision input `autoCaptureContext` logs for each decision term
found in a conversation. -/
def conversationDecisionInput (term : String) : DecisionInput :=
  { decision_type := "conversation_decision"
    context := "Decision made in conversation: " ++ term
    reasoning := "Auto-detected from conversation analysis"
    outcome := Outcome.auto_approved
    revenue_impact := none
    risk_level := none
    confidence_score := some (4/5) }

/-- The blocker arguments `autoCaptureContext` would log for each blocker
term found in a conversation (only reachable with trigger `blocker_found`). -/
def autoBlockerArgs (term : String) : LogBlockerArgs :=
  { title := term
    description := "Auto-detected blocker from conversation"
    blocker_type := BlockerType.technical
    severity := some Severity.medium
    resolution_steps := some ["Investigate blocker", "Find solution", "Implement fix"] }

/-- The discovery arguments `autoCaptureContext` would log for each
technology term (only reachable with trigger `technical_discovery`). -/
def autoDiscoveryArgs (tech : String) : LogDiscoveryArgs :=
  { discovery_type := DiscoveryType.dependency_ready
    title := tech ++ " technology discussed"
    description := "Technical discussion about " ++ tech ++ " in conversation"
    file_path := none
    impact_level := some Severity.medium
    actionable_insights := some ["Review " ++ tech ++ " implementation",
      "Consider " ++ tech ++ " integration"]
    related_conversation_turn_id := none }

/-- The `for ... of` loop of the `decision_made` branch; `mkId k` is the
`uuidv4()` generated for the k-th logged record. -/
def logConversationDecisions (st : ServerState) (terms : List String)
    (mkId : Nat → String) (k : Nat) (now : Int) : ServerState :=
  match terms with
  | [] => st
  | term :: rest =>
    logConversationDecisions
      (logDecisionInternal st (conversationDecisionInput term) (mkId k) now)
      rest mkId (k + 1) now

/-- The `for ... of` loop of the `blocker_found` branch. -/
def logConversationBlockers (st : ServerState) (terms : List String)
    (mkId : Nat → String) (k : Nat) (now : Int) : ServerState :=
  match terms with
  | [] => st
  | term :: rest =>
    logConversationBlockers (logBlocker st (autoBlockerArgs term) (mkId k) now)
      rest mkId (k + 1) now

/-- The `for ... of` loop of the `technical_discovery` branch. -/
def logConversationDiscoveries (st : ServerState) (terms : List String)
    (mkId : Nat → String) (k : Nat) (now : Int) : ServerState :=
  match terms with
  | [] => st
  | term :: rest =>
    logConversationDiscoveries (logTechnicalDiscovery st (autoDiscoveryArgs term) (mkId k) now)
      rest mkId (k + 1) now

/-- Source `autoCaptureContext`: dispatch on the trigger and materialize one
auxiliary record per extracted term of the corresponding family. -/
def autoCaptureContext (st : ServerState) (trigger : TriggerType)
    (turn : ConversationTurn) (mkId : Nat → String) (now : Int) : ServerState :=
  match trigger with
  | TriggerType.decision_made =>
    logConversationDecisions st turn.extracted_entities.decisions_made mkId 0 now
  | TriggerType.blocker_found =>
    logConversationBlockers st turn.extracted_entities.blockers_identified mkId 0 now
  | TriggerType.technical_discovery =>
    logConversationDiscoveries st turn.extracted_entities.technologies_discussed mkId 0 now

/-- Arguments of the `log_conversation_turn` tool (all three overrides use
JS `||` against the computed values). -/
structure LogConversationTurnArgs where
  user_input : String
  ai_response : String
  context_type : Option ContextType
  extracted_entities : Option ExtractedEntities
  importance_score : Option ℚ
deriving DecidableEq, Repr

/-- The `ConversationTurn` record `logConversationTurn` builds: all three
overridable fields fall back to the computed values. -/
def mkConversationTurn (st : ServerState) (args : LogConversationTurnArgs)
    (turnId : String) (now : Int) : ConversationTurn :=
  { id := turnId
    session_id := st.data.session_metadata.current_session_id
    timestamp := now
    user_input := args.user_input
    ai_response := args.ai_response
    context_type := args.context_type.getD (inferContextType args.user_input args.ai_response)
    extracted_entities := args.extracted_entities.getD
      (extractEntitiesFromConversation args.user_input args.ai_response)
    importance_score := jsOrQ args.importance_score
      (calculateImportanceScore args.user_input args.ai_response) }

/-- Source `logConversationTurn`: extract entities, append the interaction
record, save, then call `autoCaptureContext` with trigger `'decision_made'`
(the only trigger this path ever passes). -/
def logConversationTurn (st : ServerState) (args : LogConversationTurnArgs)
    (turnId : String) (mkId : Nat → String) (now : Int) : ServerState :=
  let turn := mkConversationTurn st args turnId now
  let st1 := saveData { st with data := { st.data with
    conversation_turns := st.data.conversation_turns ++ [turn] } } now
  autoCaptureContext st1 TriggerType.decision_made turn mkId now

/-- A `log_conversation_turn` call that passes only the two text fields,
leaving every override to the auto-computed values. -/
def plainConversationArgs (userInput aiResponse : String) : LogConversationTurnArgs :=
  { user_input := userInput
    ai_response := aiResponse
    context_type := none
    extracted_entities := none
    importance_score := none }

/-- The comparator of `getMarketOpportunities`: descending profit potential
only when both elements have a truthy (present, nonzero) `profit_potential`;
otherwise descending `created_at`. -/
def marketCompare (a b : MarketOpportunity) : ℚ :=
  match a.profit_potential, b.profit_potential with
  | some x, some y =>
    if x ≠ 0 ∧ y ≠ 0 then y - x else ((b.created_at : ℚ) - (a.created_at : ℚ))
  | _, _ => ((b.created_at : ℚ) - (a.created_at : ℚ))

/-- JS `Array.prototype.sort` with a numeric comparator, embedded as a
stable sort in which `a` precedes `b` when `cmp a b <= 0`. -/
def jsSort (cmp : α → α → ℚ) (l : List α) : List α :=
  List.insertionSort (fun a b => cmp a b ≤ 0) l

/-- Source `getMarketOpportunities`: optional status filter, sort by
`marketCompare`, then `slice(0, limit)` only when `args.limit` is truthy. -/
def getMarketOpportunities (st : ServerState) (status : Option OpportunityStatus)
    (limit : Option Nat) : List MarketOpportunity :=
  let opportunities :=
    match status with
    | none => st.data.market_opportunities
    | some f => st.data.market_opportunities.filter (fun o => decide (o.status = f))
  let opportunities := jsSort marketCompare opportunities
  match limit with
  | some n => if n ≠ 0 then opportunities.take n else opportunities
  | none => opportunities

/-- Per-service accumulator of `getRevenueAnalytics` (the `Map` values). -/
structure ServiceAnalytics where
  service_id : String
  transaction_count : Nat
  total_revenue : ℚ
  transactions : List Transaction
deriving DecidableEq, Repr

/-- One step of the grouping `forEach`: update the existing entry for the
transaction's service or create a fresh one (JS `Map` preserves insertion
order). -/
def addTxToStats : List ServiceAnalytics → Transaction → List ServiceAnalytics
  | [], t =>
    [{ service_id := t.service_id
       transaction_count := 1
       total_revenue := t.amount
       transactions := [t] }]
  | s :: rest, t =>
    if s.service_id == t.service_id then
      { s with
        transaction_count := s.transaction_count + 1
        total_revenue := s.total_revenue + t.amount
        transactions := s.transactions ++ [t] } :: rest
    else
      s :: addTxToStats rest t

/-- The grouping loop of `getRevenueAnalytics`. -/
def groupByService (txs : List Transaction) : List ServiceAnalytics :=
  txs.foldl addTxToStats []

/-- The comparator of the per-service ranking: descending total revenue. -/
def revenueCompare (a b : ServiceAnalytics) : ℚ :=
  b.total_revenue - a.total_revenue

/-- A per-service entry enriched with the service name and the two derived
averages. -/
structure EnrichedServiceAnalytics where
  service_id : String
  transaction_count : Nat
  total_revenue : ℚ
  transactions : List Transaction
  service_name : String
  avg_transaction : ℚ
  daily_average : ℚ
deriving DecidableEq, Repr

/-- The computed result of `getRevenueAnalytics` (the values the narrative
string reports). -/
structure RevenueAnalytics where
  total_revenue : ℚ
  total_transactions : Nat
  average_transaction : ℚ
  daily_average : ℚ
  by_service : List EnrichedServiceAnalytics
deriving DecidableEq, Repr

/-- The window/service filter of `getRevenueAnalytics`
(`timeframe_days || 30`, `cutoff = now - days*24*60*60*1000`, optional
service filter). -/
def filteredTransactions (st : ServerState) (timeframeDaysArg : Option ℚ)
    (serviceId : Option String) (now : Int) : List Transaction :=
  let timeframeDays := jsOrQ timeframeDaysArg 30
  let cutoffTime : ℚ := (now : ℚ) - timeframeDays * (24 * 60 * 60 * 1000)
  let transactions := st.data.transactions.filter (fun t => decide ((t.timestamp : ℚ) ≥ cutoffTime))
  match serviceId with
  | none => transactions
  | some sid => transactions.filter (fun t => t.service_id == sid)

/-- Source `getRevenueAnalytics`: filter the window, group by service, rank
by descending revenue, enrich with names and averages; the overview average
transaction is guarded by `totalTransactions > 0 ? ... : '0'`. -/
def getRevenueAnalytics (st : ServerState) (timeframeDaysArg : Option ℚ)
    (serviceId : Option String) (now : Int) : RevenueAnalytics :=
  let timeframeDays := jsOrQ timeframeDaysArg 30
  let transactions := filteredTransactions st timeframeDaysArg serviceId now
  let analytics := jsSort revenueCompare (groupByService transactions)
  let totalRevenue := sumAmounts transactions
  let totalTransactions := transactions.length
  let enriched := analytics.map (fun a =>
    { service_id := a.service_id
      transaction_count := a.transaction_count
      total_revenue := a.total_revenue
      transactions := a.transactions
      service_name := jsOrStr ((st.data.services.find? (fun s => s.id == a.service_id)).map
        (fun s => s.name)) "Unknown Service"
      avg_transaction := a.total_revenue / (a.transaction_count : ℚ)
      daily_average := a.total_revenue / timeframeDays })
  { total_revenue := totalRevenue
    total_transactions := totalTransactions
    average_transaction :=
      if totalTransactions > 0 then totalRevenue / (totalTransactions : ℚ) else 0
    daily_average := totalRevenue / timeframeDays
    by_service := enriched }

/-- A fresh in-memory server around an arbitrary session id and clock, as
after a first-run `loadData` (before its initial save). -/
def initialState (sessionId : String) (now : Int) : ServerState :=
  { data := emptyRevBotData sessionId now, lastAutoSave := now, writes := 0 }

/-- Observation: the state carried by a successful operation result. -/
def okState : Except String ServerState → Option ServerState
  | Except.ok st => some st
  | Except.error _ => none

/-- Observation: the transaction list of a successful result. -/
def okTransactions : Except String ServerState → Option (List Transaction)
  | Except.ok st => some st.data.transactions
  | Except.error _ => none

/-- Observation: the service list of a successful result. -/
def okServices : Except String ServerState → Option (List Service)
  | Except.ok st => some st.data.services
  | Except.error _ => none

/-- Observation: the decision list of a successful result. -/
def okDecisions : Except String ServerState → Option (List Decision)
  | Except.ok st => some st.data.decisions
  | Except.error _ => none

/-- Observation: the blocker list of a successful result. -/
def okBlockers : Except String ServerState → Option (List Blocker)
  | Except.ok st => some st.data.blockers
  | Except.error _ => none

/-- Observation: the first service with the given id in a successful result. -/
def okServiceFind (e : Except String ServerState) (sid : String) : Option Service :=
  match e with
  | Except.ok st => st.data.services.find? (fun s => s.id == sid)
  | Except.error _ => none

/-- Observation: the status of the service with the given id. -/
def okStatusOf (e : Except String ServerState) (sid : String) : Option ServiceStatus :=
  (okServiceFind e sid).map Service.status

/-- Observation: the `daily_revenue` counter of the service with the given id. -/
def okDailyRevenue (e : Except String ServerState) (sid : String) : Option ℚ :=
  (okServiceFind e sid).map Service.daily_revenue

/-- Observation: the first blocker with the given id in a successful result. -/
def okBlockerFind (e : Except String ServerState) (bid : String) : Option Blocker :=
  match e with
  | Except.ok st => st.data.blockers.find? (fun b => b.id == bid)
  | Except.error _ => none

/-- Number of decisions of the given type in a decision list. -/
def countDecisionType (l : List Decision) (ty : String) : Nat :=
  (l.filter (fun d => d.decision_type == ty)).length

/-- Observation: how many decisions of the given type a successful result holds. -/
def okCountDecisionType (e : Except String ServerState) (ty : String) : Option Nat :=
  match e with
  | Except.ok st => some (countDecisionType st.data.decisions ty)
  | Except.error _ => none

/-- Observation: on success the `writes` counter is at least `n`; failed
operations are unconstrained. -/
def okWritesGe (e : Except String ServerState) (n : Nat) : Prop :=
  match e with
  | Except.ok st => n ≤ st.writes
  | Except.error _ => True

/-- Replacing the first match rewrites exactly the element `find?` returns:
if `f` keeps the element matching, `find?` afterwards returns its image. -/
theorem find?_updateFirst {α} {p : α → Bool} {f : α → α} {l : List α} {x : α}
    (hfind : l.find? p = some x) (hf : p (f x) = true) :
    (updateFirst p f l).find? p = some (f x) := by
  induction l with
  | nil => simp at hfind
  | cons a as ih =>
    by_cases hpa : p a
    · rw [List.find?_cons_of_pos _ hpa] at hfind
      injection hfind with hx
      subst hx
      simp [updateFirst, hpa, List.find?_cons_of_pos _ hf]
    · rw [List.find?_cons_of_neg _ (by simpa using hpa)] at hfind
      simp only [updateFirst, if_neg hpa]
      rw [List.find?_cons_of_neg _ (by simpa using hpa)]
      exact ih hfind

/-- The decision records the `decision_made` branch of `autoCaptureContext`
materializes, one per extracted decision term, ids taken in order. -/
def conversationDecisions (terms : List String) (mkId : Nat → String) (k : Nat)
    (now : Int) : List Decision :=
  match terms with
  | [] => []
  | term :: rest =>
    mkDecision (conversationDecisionInput term) (mkId k) now
      :: conversationDecisions rest mkId (k + 1) now

theorem conversationDecisions_length (terms : List String) (mkId : Nat → String)
    (k : Nat) (now : Int) :
    (conversationDecisions terms mkId k now).length = terms.length := by
  induction terms generalizing k with
  | nil => rfl
  | cons term rest ih => simp [conversationDecisions, ih]

/-- Effect of the `decision_made` loop: it appends exactly the
`conversationDecisions` records, bumps `writes` once per record, and leaves
every other collection alone. -/
theorem logConversationDecisions_spec (st : ServerState) (terms : List String)
    (mkId : Nat → String) (k : Nat) (now : Int) :
    (logConversationDecisions st terms mkId k now).data.decisions
        = st.data.decisions ++ conversationDecisions terms mkId k now ∧
      (logConversationDecisions st terms mkId k now).data.blockers = st.data.blockers ∧
      (logConversationDecisions st terms mkId k now).data.conversation_turns
        = st.data.conversation_turns ∧
      (logConversationDecisions st terms mkId k now).data.services = st.data.services ∧
      (logConversationDecisions st terms mkId k now).data.transactions = st.data.transactions ∧
      (logConversationDecisions st terms mkId k now).writes = st.writes + terms.length := by
  induction terms generalizing st k with
  | nil => simp [logConversationDecisions, conversationDecisions]
  | cons term rest ih =>
    have h := ih (logDecisionInternal st (conversationDecisionInput term) (mkId k) now) (k + 1)
    simp only [logConversationDecisions, conversationDecisions]
    refine ⟨?_, ?_, ?_, ?_, ?_, ?_⟩
    · rw [h.1]; simp [logDecisionInternal, saveData]
    · rw [h.2.1]; simp [logDecisionInternal, saveData]
    · rw [h.2.2.1]; simp [logDecisionInternal, saveData]
    · rw [h.2.2.2.1]; simp [logDecisionInternal, saveData]
    · rw [h.2.2.2.2.1]; simp [logDecisionInternal, saveData]
    · rw [h.2.2.2.2.2]; simp [logDecisionInternal, saveData]; omega

/-- Every accumulator entry produced by `addTxToStats` keeps a positive
transaction count. -/
theorem addTxToStats_pos (l : List ServiceAnalytics) (t : Transaction)
    (hl : ∀ e ∈ l, 0 < e.transaction_count) :
    ∀ e ∈ addTxToStats l t, 0 < e.transaction_count := by
  induction l with
  | nil =>
    intro e he
    simp [addTxToStats] at he
    subst he
    exact Nat.one_pos
  | cons s rest ih =>
    intro e he
    by_cases hs : s.service_id == t.service_id
    · simp [addTxToStats, hs] at he
      rcases he with rfl | he
      · simp
      · exact hl e (List.mem_cons_of_mem _ he)
    · simp [addTxToStats, hs] at he
      rcases he with rfl | he
      · exact hl e (List.mem_cons_self e rest)
      · exact ih (fun x hx => hl x (List.mem_cons_of_mem _ hx)) e he

/-- Every group produced by `groupByService` has at least one transaction. -/
theorem groupByService_pos (txs : List Transaction) :
    ∀ e ∈ groupByService txs, 0 < e.transaction_count := by
  have key : ∀ (txs : List Transaction) (acc : List ServiceAnalytics),
      (∀ e ∈ acc, 0 < e.transaction_count) →
      ∀ e ∈ txs.foldl addTxToStats acc, 0 < e.transaction_count := by
    intro txs
    induction txs with
    | nil => intro acc hacc; simpa using hacc
    | cons t rest ih =>
      intro acc hacc
      exact ih (addTxToStats acc t) (addTxToStats_pos acc t hacc)
  exact key txs [] (by simp)

/-- C7: `load()` initializes a well-formed empty entity graph plus fresh
session metadata whenever the persisted image is missing or its payload is
malformed, never failing fatally, and a readable image is loaded as-is. -/
theorem c7_load_never_fatal (sessionId : String) (now : Int) (d : RevBotData) :
    (loadData PersistedImage.missing sessionId now).data = emptyRevBotData sessionId now ∧
      (loadData PersistedImage.malformed sessionId now).data = emptyRevBotData sessionId now ∧
      (loadData (PersistedImage.readable d) sessionId now).data = d ∧
      (emptyRevBotData sessionId now).business_states = [] ∧
      (emptyRevBotData sessionId now).services = [] ∧
      (emptyRevBotData sessionId now).transactions = [] ∧
      (emptyRevBotData sessionId now).decisions = [] ∧
      (emptyRevBotData sessionId now).market_opportunities = [] ∧
      (emptyRevBotData sessionId now).customers = [] ∧
      (emptyRevBotData sessionId now).conversation_turns = [] ∧
      (emptyRevBotData sessionId now).technical_discoveries = [] ∧
      (emptyRevBotData sessionId now).blockers = [] ∧
      (emptyRevBotData sessionId now).progress_milestones = [] ∧
      (emptyRevBotData sessionId now).session_metadata =
        { current_session_id := sessionId
          session_start := now
          last_activity := now
          auto_save_enabled := true } := by
  exact ⟨rfl, rfl, rfl, rfl, rfl, rfl, rfl, rfl, rfl, rfl, rfl, rfl, rfl, rfl⟩

/-- C9: a `record_transaction` call whose `service_id` matches no registered
service still appends the transaction and succeeds (never a NotFound
error); the only skipped effect is the daily-revenue recomputation, so the
service list is unchanged. -/
theorem c9_unknown_service_transaction (st : ServerState) (args : RecordTransactionArgs)
    (txId : String) (now todayStart : Int)
    (hnone : st.data.services.find? (fun s => s.id == args.service_id) = none) :
    okTransactions (recordTransaction st args txId now todayStart)
        = some (st.data.transactions ++ [mkTransaction args txId now]) ∧
      okServices (recordTransaction st args txId now todayStart) = some st.data.services ∧
      okState (recordTransaction st args txId now todayStart) ≠ none := by
  simp [recordTransaction, saveData, okTransactions, okServices, okState, hnone]

/-- Arguments of the C9 witness scenario: a transaction for a service id
that is not registered. -/
def c9Args : RecordTransactionArgs :=
  { service_id := "ghost"
    amount := 25
    currency := none
    customer_id := none
    stripe_transaction_id := none
    metadata := none }

/-- Witness for C9 on a fresh store with no services. -/
theorem c9_unknown_service_transaction_witness :
    okTransactions (recordTransaction (initialState "s0" 0) c9Args "tx1" 5 0)
        = some ((initialState "s0" 0).data.transactions ++ [mkTransaction c9Args "tx1" 5]) ∧
      okServices (recordTransaction (initialState "s0" 0) c9Args "tx1" 5 0)
        = some (initialState "s0" 0).data.services ∧
      okState (recordTransaction (initialState "s0" 0) c9Args "tx1" 5 0) ≠ none :=
  c9_unknown_service_transaction (initialState "s0" 0) c9Args "tx1" 5 0 rfl

/-- C10: for an existing blocker id, `resolve_blocker` unconditionally sets
the blocker's status to `resolved` and stores the resolution summary,
whatever the current status was (no hypothesis on it — including
`escalated` or an already `resolved` one); an unknown id yields the
NotFound error, and an error returns no new state, leaving the store as it
was. -/
theorem c10_resolve_blocker_unconditional (st : ServerState) (blockerId summary : String)
    (now : Int) :
    (∀ b, st.data.blockers.find? (fun x => x.id == blockerId) = some b →
      okBlockerFind (resolveBlocker st blockerId summary now) blockerId
          = some { b with
              status := BlockerStatus.resolved
              resolution_summary := some summary } ∧
        okBlockers (resolveBlocker st blockerId summary now)
          = some (updateFirst (fun x => x.id == blockerId)
              (fun x => { x with
                status := BlockerStatus.resolved
                resolution_summary := some summary }) st.data.blockers) ∧
        okServices (resolveBlocker st blockerId summary now) = some st.data.services) ∧
      (st.data.blockers.find? (fun x => x.id == blockerId) = none →
        resolveBlocker st blockerId summary now
          = Except.error ("Blocker not found: " ++ blockerId)) := by
  constructor
  · intro b hb
    have hpb := List.find?_some hb
    refine ⟨?_, ?_, ?_⟩
    · simp only [resolveBlocker, hb, okBlockerFind, saveData]
      exact find?_updateFirst hb hpb
    · simp [resolveBlocker, hb, okBlockers, saveData]
    · simp [resolveBlocker, hb, okServices, saveData]
  · intro hn
    simp [resolveBlocker, hn]

/-- The C10 witness blocker: already `escalated`. -/
def c10Blocker : Blocker :=
  { id := "b1"
    timestamp := 0
    title := "stripe keys missing"
    description := "cannot deploy"
    blocker_type := BlockerType.configuration
    severity := Severity.high
    status := BlockerStatus.escalated
    resolution_steps := []
    resolution_summary := none }

/-- The C10 witness store holding only `c10Blocker`. -/
def c10State : ServerState :=
  { data := { emptyRevBotData "s0" 0 with blockers := [c10Blocker] }
    lastAutoSave := 0
    writes := 0 }

/-- Witness for C10: resolving an `escalated` blocker rewrites it, and an
unknown id errors. -/
theorem c10_resolve_blocker_witness :
    okBlockerFind (resolveBlocker c10State "b1" "keys rotated" 9) "b1"
        = some { c10Blocker with
            status := BlockerStatus.resolved
            resolution_summary := some "keys rotated" } ∧
      resolveBlocker c10State "zz" "x" 9 = Except.error ("Blocker not found: " ++ "zz") :=
  ⟨((c10_resolve_blocker_unconditional c10State "b1" "keys rotated" 9).1 c10Blocker rfl).1,
    (c10_resolve_blocker_unconditional c10State "zz" "x" 9).2 rfl⟩

/-- C8: a revenue-analytics query over a window containing zero transactions
reports total revenue 0 and transaction count 0, the overview average is
defined as 0 when the count is 0, and every per-service entry (in any
query) carries a strictly positive transaction count, so no division by
zero arises anywhere. -/
theorem c8_empty_window_analytics (st : ServerState) (days : Option ℚ)
    (sid : Option String) (now : Int) :
    (filteredTransactions st days sid now = [] →
      (getRevenueAnalytics st days sid now).total_revenue = 0 ∧
        (getRevenueAnalytics st days sid now).total_transactions = 0 ∧
        (getRevenueAnalytics st days sid now).average_transaction = 0 ∧
        (getRevenueAnalytics st days sid now).by_service = []) ∧
      ∀ e ∈ (getRevenueAnalytics st days sid now).by_service, 0 < e.transaction_count := by
  constructor
  · intro h
    simp [getRevenueAnalytics, h, sumAmounts, groupByService, jsSort]
  · intro e he
    simp only [getRevenueAnalytics] at he
    obtain ⟨a, ha, rfl⟩ := List.mem_map.mp he
    have ha2 : a ∈ groupByService (filteredTransactions st days sid now) := by
      have hperm := List.perm_insertionSort
        (fun x y : ServiceAnalytics => revenueCompare x y ≤ 0)
        (groupByService (filteredTransactions st days sid now))
      exact hperm.mem_iff.mp ha
    exact groupByService_pos _ a ha2

/-- Witness for C8: a 7-day window over an empty store. -/
theorem c8_empty_window_analytics_witness :
    (getRevenueAnalytics (initialState "s0" 0) (some 7) none 1000000).total_revenue = 0 ∧
      (getRevenueAnalytics (initialState "s0" 0) (some 7) none 1000000).total_transactions = 0 ∧
      (getRevenueAnalytics (initialState "s0" 0) (some 7) none 1000000).average_transaction = 0 ∧
      (getRevenueAnalytics (initialState "s0" 0) (some 7) none 1000000).by_service = [] :=
  (c8_empty_window_analytics (initialState "s0" 0) (some 7) none 1000000).1 rfl

/-- The claim's day-window predicate: the transaction belongs to the given
service and its timestamp falls within the current local day
`[todayStart, dayEnd)`. -/
def serviceTxWithinDay (todayStart dayEnd : Int) (sid : String) (t : Transaction) : Bool :=
  t.service_id == sid && (decide (todayStart ≤ t.timestamp) && decide (t.timestamp < dayEnd))

/-- C2: after an append through `record_transaction` for an existing
service, the service's `daily_revenue` equals the exact sum of the amounts
of that service's transactions whose timestamp falls within the current
local day, recomputed from the post-append transaction list (the arbitrary
pre-state covers every sequence of same-day appends). -/
theorem c2_daily_revenue_recomputed (st : ServerState) (args : RecordTransactionArgs)
    (txId : String) (now todayStart dayEnd : Int) (s : Service)
    (hfind : st.data.services.find? (fun x => x.id == args.service_id) = some s)
    (hbound : ∀ t ∈ st.data.transactions, t.timestamp < dayEnd)
    (hnow1 : todayStart ≤ now) (hnow2 : now < dayEnd) :
    okTransactions (recordTransaction st args txId now todayStart)
        = some (st.data.transactions ++ [mkTransaction args txId now]) ∧
      okDailyRevenue (recordTransaction st args txId now todayStart) args.service_id
        = some (sumAmounts
            ((st.data.transactions ++ [mkTransaction args txId now]).filter
              (serviceTxWithinDay todayStart dayEnd args.service_id))) := by
  have hall : ∀ t ∈ st.data.transactions ++ [mkTransaction args txId now],
      (t.service_id == args.service_id && decide (t.timestamp ≥ todayStart))
        = serviceTxWithinDay todayStart dayEnd args.service_id t := by
    intro t ht
    rcases List.mem_append.mp ht with ht | ht
    · have hlt := hbound t ht
      simp [serviceTxWithinDay, ge_iff_le, hlt]
    · rw [List.mem_singleton] at ht
      subst ht
      simp [serviceTxWithinDay, mkTransaction, ge_iff_le, hnow1, hnow2]
  have hpf := List.find?_some hfind
  constructor
  · simp [recordTransaction, saveData, okTransactions, hfind]
  · simp only [recordTransaction, saveData, okDailyRevenue, okServiceFind, hfind]
    rw [find?_updateFirst hfind hpf]
    simp only [Option.map_some']
    rw [List.filter_congr hall]

/-- The C2 witness service. -/
def c2Service : Service :=
  { id := "svc1"
    name := "qr generator"
    stype := "api"
    status := ServiceStatus.active
    created_at := 0
    daily_revenue := 5
    daily_costs := 0
    customer_count := 0
    performance_metrics :=
      { uptime_percentage := 100
        response_time_ms := 0
        error_rate := 0
        customer_satisfaction := 5 }
    scaling_config := { auto_scale := true, max_daily_spend := 100, kill_threshold := -10 }
    updated_at := 0 }

/-- An earlier same-day transaction of the C2 witness service. -/
def c2OldTx : Transaction :=
  { id := "tx0"
    service_id := "svc1"
    amount := 5
    currency := "USD"
    customer_id := none
    timestamp := 10
    stripe_transaction_id := none
    metadata := [] }

/-- The C2 witness store: one service, one prior same-day transaction. -/
def c2State : ServerState :=
  { data := { emptyRevBotData "s0" 0 with
      services := [c2Service]
      transactions := [c2OldTx] }
    lastAutoSave := 0
    writes := 0 }

/-- The C2 witness append: three more dollars for the same service. -/
def c2Args : RecordTransactionArgs :=
  { service_id := "svc1"
    amount := 3
    currency := none
    customer_id := none
    stripe_transaction_id := none
    metadata := none }

/-- Witness for C2: appending the second transaction of the day recomputes
`daily_revenue` to the full day sum 5 + 3 = 8. -/
theorem c2_daily_revenue_recomputed_witness :
    okDailyRevenue (recordTransaction c2State c2Args "tx1" 20 0) "svc1"
        = some (sumAmounts
            ((c2State.data.transactions ++ [mkTransaction c2Args "tx1" 20]).filter
              (serviceTxWithinDay 0 86400000 "svc1"))) ∧
      okDailyRevenue (recordTransaction c2State c2Args "tx1" 20 0) "svc1" = some 8 := by
  have h := c2_daily_revenue_recomputed c2State c2Args "tx1" 20 0 86400000 c2Service
    rfl (by decide) (by decide) (by decide)
  have h2 : okDailyRevenue (recordTransaction c2State c2Args "tx1" 20 0) "svc1"
      = some (sumAmounts
          ((c2State.data.transactions ++ [mkTransaction c2Args "tx1" 20]).filter
            (serviceTxWithinDay 0 86400000 "svc1"))) := h.2
  refine ⟨h2, ?_⟩
  rw [h2]
  norm_num [c2State, c2OldTx, c2Args, mkTransaction, serviceTxWithinDay, sumAmounts,
    emptyRevBotData, jsOrStr, List.filter]

/-- The daily profit `updateServicePerformance` computes after applying the
field updates: `daily_revenue - daily_costs` of the updated service. -/
def postUpdateProfit (args : UpdatePerformanceArgs) (now : Int) (s : Service) : ℚ :=
  (applyPerfArgs args now s).daily_revenue - (applyPerfArgs args now s).daily_costs

@[simp]
theorem applyPerfArgs_id (args : UpdatePerformanceArgs) (now : Int) (s : Service) :
    (applyPerfArgs args now s).id = s.id := rfl

@[simp]
theorem applyPerfArgs_status (args : UpdatePerformanceArgs) (now : Int) (s : Service) :
    (applyPerfArgs args now s).status = s.status := rfl

@[simp]
theorem applyPerfArgs_scaling_config (args : UpdatePerformanceArgs) (now : Int) (s : Service) :
    (applyPerfArgs args now s).scaling_config = s.scaling_config := rfl

/-- C1 (amended): for a service with `auto_scale` enabled, an update whose
resulting daily profit falls below the kill threshold sets the status to
`killed` and appends exactly one `auto_kill_service` decision with outcome
`auto_approved`, risk `low`, confidence 0.9 and `revenue_impact` the daily
profit. No hypothesis constrains the prior status: the rule is NOT guarded
by "not already killed", so the same update on an already-killed service
appends a further decision (see the counterexample). -/
theorem c1_kill_transition (st : ServerState) (args : UpdatePerformanceArgs)
    (decisionId : String) (now : Int) (s : Service)
    (hfind : st.data.services.find? (fun x => x.id == args.service_id) = some s)
    (hauto : s.scaling_config.auto_scale = true)
    (hkill : postUpdateProfit args now s < s.scaling_config.kill_threshold) :
    okStatusOf (updateServicePerformance st args decisionId now) args.service_id
        = some ServiceStatus.killed ∧
      okDecisions (updateServicePerformance st args decisionId now)
        = some (st.data.decisions
            ++ [mkDecision (killDecisionInput (applyPerfArgs args now s)
                  (postUpdateProfit args now s)) decisionId now]) ∧
      (mkDecision (killDecisionInput (applyPerfArgs args now s) (postUpdateProfit args now s))
          decisionId now).decision_type = "auto_kill_service" ∧
      (mkDecision (killDecisionInput (applyPerfArgs args now s) (postUpdateProfit args now s))
          decisionId now).outcome = Outcome.auto_approved ∧
      (mkDecision (killDecisionInput (applyPerfArgs args now s) (postUpdateProfit args now s))
          decisionId now).revenue_impact = some (postUpdateProfit args now s) ∧
      (mkDecision (killDecisionInput (applyPerfArgs args now s) (postUpdateProfit args now s))
          decisionId now).impact_metrics.risk_level = RiskLevel.low ∧
      (mkDecision (killDecisionInput (applyPerfArgs args now s) (postUpdateProfit args now s))
          decisionId now).impact_metrics.confidence_score = 9/10 := by
  have hpf := List.find?_some hfind
  simp only [postUpdateProfit] at hkill
  have hrun : runAutoScale (applyPerfArgs args now s)
      = ({ applyPerfArgs args now s with status := ServiceStatus.killed },
          some (killDecisionInput (applyPerfArgs args now s) (postUpdateProfit args now s))) := by
    simp only [runAutoScale, applyPerfArgs_scaling_config, applyPerfArgs_status, hauto,
      if_true, postUpdateProfit]
    rw [if_pos hkill]
  refine ⟨?_, ?_, rfl, rfl, rfl, rfl, ?_⟩
  · simp only [updateServicePerformance, hfind, hrun, okStatusOf, okServiceFind, saveData,
      logDecisionInternal]
    rw [find?_updateFirst hfind hpf]
    rfl
  · simp only [updateServicePerformance, hfind, hrun, okDecisions, saveData, logDecisionInternal]
  · norm_num [mkDecision, killDecisionInput, jsOrQ]

/-- The C1/C4 example service: freshly registered, auto-scaling, default
kill threshold. -/
def c1Service : Service :=
  { id := "svc1"
    name := "qr generator"
    stype := "api"
    status := ServiceStatus.active
    created_at := 0
    daily_revenue := 0
    daily_costs := 0
    customer_count := 0
    performance_metrics :=
      { uptime_percentage := 100
        response_time_ms := 0
        error_rate := 0
        customer_satisfaction := 5 }
    scaling_config := { auto_scale := true, max_daily_spend := 100, kill_threshold := -10 }
    updated_at := 0 }

/-- The C1 example store holding only `c1Service`. -/
def c1State : ServerState :=
  { data := { emptyRevBotData "s0" 0 with services := [c1Service] }
    lastAutoSave := 0
    writes := 0 }

/-- The C1 performance update: revenue 5, costs 20, so daily profit -15. -/
def c1Args : UpdatePerformanceArgs :=
  { service_id := "svc1"
    daily_revenue := some 5
    daily_costs := some 20
    customer_count := none
    performance_metrics := none }

/-- Witness for C1 (amended): the spec's concrete kill scenario, profit
-15 below the default threshold -10. -/
theorem c1_kill_transition_witness :
    okStatusOf (updateServicePerformance c1State c1Args "d1" 100) "svc1"
        = some ServiceStatus.killed ∧
      okDecisions (updateServicePerformance c1State c1Args "d1" 100)
        = some [mkDecision (killDecisionInput (applyPerfArgs c1Args 100 c1Service)
            (postUpdateProfit c1Args 100 c1Service)) "d1" 100] ∧
      postUpdateProfit c1Args 100 c1Service = -15 ∧
      (mkDecision (killDecisionInput (applyPerfArgs c1Args 100 c1Service)
          (postUpdateProfit c1Args 100 c1Service)) "d1" 100).revenue_impact
        = some (postUpdateProfit c1Args 100 c1Service) := by
  have h := c1_kill_transition c1State c1Args "d1" 100 c1Service rfl rfl
    (by norm_num [postUpdateProfit, applyPerfArgs, c1Args, c1Service])
  refine ⟨h.1, ?_, ?_, h.2.2.2.2.1⟩
  · have h2 := h.2.1
    simpa [c1State, emptyRevBotData] using h2
  · norm_num [postUpdateProfit, applyPerfArgs, c1Args, c1Service]

/-- Re-submitting the identical update after the service is already killed. -/
def c1Resubmit : Except String ServerState :=
  match updateServicePerformance c1State c1Args "d1" 100 with
  | Except.ok st1 => updateServicePerformance st1 c1Args "d2" 200
  | Except.error e => Except.error e

/-- Counterexample for C1 as stated: the first update appends one
`auto_kill_service` decision, but re-submitting the identical update while
the status is already `killed` appends a second one — rule 1 carries no
"not already killed" guard. -/
theorem c1_resubmit_counterexample :
    okStatusOf (updateServicePerformance c1State c1Args "d1" 100) "svc1"
        = some ServiceStatus.killed ∧
      okCountDecisionType (updateServicePerformance c1State c1Args "d1" 100) "auto_kill_service"
        = some 1 ∧
      okStatusOf c1Resubmit "svc1" = some ServiceStatus.killed ∧
      okCountDecisionType c1Resubmit "auto_kill_service" = some 2 := by
  refine ⟨?_, ?_, ?_, ?_⟩ <;>
    norm_num [c1Resubmit, updateServicePerformance, c1State, c1Service, c1Args,
      emptyRevBotData, applyPerfArgs, runAutoScale, killDecisionInput, mkDecision,
      logDecisionInternal, saveData, updateFirst, okStatusOf, okServiceFind, okDecisions,
      okCountDecisionType, countDecisionType, List.find?, List.filter, jsOrQ]

/-- C4: for a service with `auto_scale` enabled whose update yields a daily
profit above 50 that is not below the kill threshold, if the current status
is `active` the service transitions to `scaling` and exactly one
`auto_scale_service` decision is appended (outcome `auto_approved`, risk
`medium`, confidence 0.7, `revenue_impact` twice the daily profit); and
because the status guard reads `active`, a service already `scaling` is not
re-matched: its status and the decision list are left unchanged. -/
theorem c4_scale_transition (st : ServerState) (args : UpdatePerformanceArgs)
    (decisionId : String) (now : Int) (s : Service)
    (hfind : st.data.services.find? (fun x => x.id == args.service_id) = some s)
    (hauto : s.scaling_config.auto_scale = true)
    (hprofit : 50 < postUpdateProfit args now s)
    (hnokill : ¬ postUpdateProfit args now s < s.scaling_config.kill_threshold) :
    (s.status = ServiceStatus.active →
      okStatusOf (updateServicePerformance st args decisionId now) args.service_id
          = some ServiceStatus.scaling ∧
        okDecisions (updateServicePerformance st args decisionId now)
          = some (st.data.decisions
              ++ [mkDecision (scaleDecisionInput (applyPerfArgs args now s)
                    (postUpdateProfit args now s)) decisionId now]) ∧
        (mkDecision (scaleDecisionInput (applyPerfArgs args now s) (postUpdateProfit args now s))
            decisionId now).decision_type = "auto_scale_service" ∧
        (mkDecision (scaleDecisionInput (applyPerfArgs args now s) (postUpdateProfit args now s))
            decisionId now).outcome = Outcome.auto_approved ∧
        (mkDecision (scaleDecisionInput (applyPerfArgs args now s) (postUpdateProfit args now s))
            decisionId now).revenue_impact = some (postUpdateProfit args now s * 2) ∧
        (mkDecision (scaleDecisionInput (applyPerfArgs args now s) (postUpdateProfit args now s))
            decisionId now).impact_metrics.risk_level = RiskLevel.medium ∧
        (mkDecision (scaleDecisionInput (applyPerfArgs args now s) (postUpdateProfit args now s))
            decisionId now).impact_metrics.confidence_score = 7/10 ∧
        (mkDecision (scaleDecisionInput (applyPerfArgs args now s) (postUpdateProfit args now s))
            decisionId now).impact_metrics.revenue_impact = postUpdateProfit args now s * 2) ∧
      (s.status = ServiceStatus.scaling →
        okStatusOf (updateServicePerformance st args decisionId now) args.service_id
            = some ServiceStatus.scaling ∧
          okDecisions (updateServicePerformance st args decisionId now)
            = some st.data.decisions) := by
  have hpf := List.find?_some hfind
  simp only [postUpdateProfit] at hprofit hnokill
  constructor
  · intro hst
    have hrun : runAutoScale (applyPerfArgs args now s)
        = ({ applyPerfArgs args now s with status := ServiceStatus.scaling },
            some (scaleDecisionInput (applyPerfArgs args now s)
              (postUpdateProfit args now s))) := by
      simp only [runAutoScale, applyPerfArgs_scaling_config, applyPerfArgs_status, hauto,
        if_true, postUpdateProfit]
      rw [if_neg hnokill, if_pos ⟨hprofit, hst⟩]
    refine ⟨?_, ?_, rfl, rfl, rfl, rfl, ?_, ?_⟩
    · simp only [updateServicePerformance, hfind, hrun, okStatusOf, okServiceFind, saveData,
        logDecisionInternal]
      rw [find?_updateFirst hfind hpf]
      rfl
    · simp only [updateServicePerformance, hfind, hrun, okDecisions, saveData,
        logDecisionInternal]
    · norm_num [mkDecision, scaleDecisionInput, jsOrQ]
    · have hne : postUpdateProfit args now s * 2 ≠ 0 := by
        have h0 : (0 : ℚ) < postUpdateProfit args now s := by
          simp only [postUpdateProfit]
          linarith
        positivity
      simp [mkDecision, scaleDecisionInput, jsOrQ, hne]
  · intro hst
    have hrun : runAutoScale (applyPerfArgs args now s) = (applyPerfArgs args now s, none) := by
      simp only [runAutoScale, applyPerfArgs_scaling_config, applyPerfArgs_status, hauto,
        if_true]
      rw [if_neg hnokill, if_neg (by simp [hst])]
    constructor
    · simp only [updateServicePerformance, hfind, hrun, okStatusOf, okServiceFind, saveData]
      rw [find?_updateFirst hfind hpf]
      simp [applyPerfArgs_status, hst]
    · simp only [updateServicePerformance, hfind, hrun, okDecisions, saveData]

/-- The C4 example store holding only the active `c1Service`. -/
def c4State : ServerState :=
  { data := { emptyRevBotData "s0" 0 with services := [c1Service] }
    lastAutoSave := 0
    writes := 0 }

/-- The C4 performance update: revenue 80, costs 10, so daily profit 70. -/
def c4Args : UpdatePerformanceArgs :=
  { service_id := "svc1"
    daily_revenue := some 80
    daily_costs := some 10
    customer_count := none
    performance_metrics := none }

/-- Witness for C4: the spec's concrete scaling scenario — profit 70,
status `active` to `scaling`, decision `revenue_impact` 140. -/
theorem c4_scale_transition_witness :
    okStatusOf (updateServicePerformance c4State c4Args "d1" 100) "svc1"
        = some ServiceStatus.scaling ∧
      okDecisions (updateServicePerformance c4State c4Args "d1" 100)
        = some [mkDecision (scaleDecisionInput (applyPerfArgs c4Args 100 c1Service)
            (postUpdateProfit c4Args 100 c1Service)) "d1" 100] ∧
      postUpdateProfit c4Args 100 c1Service = 70 ∧
      (mkDecision (scaleDecisionInput (applyPerfArgs c4Args 100 c1Service)
          (postUpdateProfit c4Args 100 c1Service)) "d1" 100).revenue_impact = some 140 := by
  have h := (c4_scale_transition c4State c4Args "d1" 100 c1Service rfl rfl
    (by norm_num [postUpdateProfit, applyPerfArgs, c4Args, c1Service])
    (by norm_num [postUpdateProfit, applyPerfArgs, c4Args, c1Service])) |>.1 rfl
  have hp : postUpdateProfit c4Args 100 c1Service = 70 := by
    norm_num [postUpdateProfit, applyPerfArgs, c4Args, c1Service]
  refine ⟨h.1, ?_, hp, ?_⟩
  · have h2 := h.2.1
    simpa [c4State, emptyRevBotData] using h2
  · have h3 := h.2.2.2.2.1
    rw [h3, hp]
    norm_num

theorem updateServicePerformance_writes_ge (st : ServerState) (args : UpdatePerformanceArgs)
    (decisionId : String) (now : Int) :
    okWritesGe (updateServicePerformance st args decisionId now) (st.writes + 1) := by
  rcases hfind : st.data.services.find? (fun s => s.id == args.service_id) with _ | s
  · simp [updateServicePerformance, hfind, okWritesGe]
  · rcases hres : (runAutoScale (applyPerfArgs args now s)).2 with _ | di
    · simp [updateServicePerformance, hfind, hres, okWritesGe, saveData]
    · simp [updateServicePerformance, hfind, hres, okWritesGe, saveData, logDecisionInternal]

theorem recordTransaction_writes_ge (st : ServerState) (args : RecordTransactionArgs)
    (txId : String) (now todayStart : Int) :
    okWritesGe (recordTransaction st args txId now todayStart) (st.writes + 1) := by
  rcases hfind : st.data.services.find? (fun s => s.id == args.service_id) with _ | s
  · simp [recordTransaction, hfind, okWritesGe, saveData]
  · simp [recordTransaction, hfind, okWritesGe, saveData]

theorem resolveBlocker_writes_ge (st : ServerState) (blockerId summary : String) (now : Int) :
    okWritesGe (resolveBlocker st blockerId summary now) (st.writes + 1) := by
  rcases hfind : st.data.blockers.find? (fun b => b.id == blockerId) with _ | b
  · simp [resolveBlocker, hfind, okWritesGe]
  · simp [resolveBlocker, hfind, okWritesGe, saveData]

theorem logConversationTurn_writes (st : ServerState) (args : LogConversationTurnArgs)
    (turnId : String) (mkId : Nat → String) (now : Int) :
    (logConversationTurn st args turnId mkId now).writes
      = st.writes + 1
        + (mkConversationTurn st args turnId now).extracted_entities.decisions_made.length := by
  simp only [logConversationTurn, autoCaptureContext]
  rw [(logConversationDecisions_spec _ _ _ _ _).2.2.2.2.2]
  simp [saveData]

/-- C3 (amended): every mutating operation itself performs the blocking
durable-storage write — each one ends in at least one synchronous
`saveData` (`fs.writeFileSync`), observed on the `writes` counter; there is
no dirty flag. The background timer additionally writes exactly when more
than 30000 ms have passed since the last save and auto-save is enabled, and
shutdown performs one final unconditional write. -/
theorem c3_mutations_write_synchronously (st : ServerState)
    (rargs : RegisterServiceArgs) (uargs : UpdatePerformanceArgs)
    (targs : RecordTransactionArgs) (dargs : LogDecisionArgs)
    (margs : MarketOpportunityArgs) (cargs : LogConversationTurnArgs)
    (bargs : LogBlockerArgs) (pargs : LogMilestoneArgs) (sargs : BusinessStateArgs)
    (blockerId summary id : String) (mkId : Nat → String) (now todayStart : Int) :
    (registerService st rargs id now).writes = st.writes + 1 ∧
      okWritesGe (updateServicePerformance st uargs id now) (st.writes + 1) ∧
      okWritesGe (recordTransaction st targs id now todayStart) (st.writes + 1) ∧
      (logDecision st dargs id now).writes = st.writes + 1 ∧
      (recordMarketOpportunity st margs id now).writes = st.writes + 1 ∧
      (logConversationTurn st cargs id mkId now).writes
        = st.writes + 1
          + (mkConversationTurn st cargs id now).extracted_entities.decisions_made.length ∧
      (logBlocker st bargs id now).writes = st.writes + 1 ∧
      okWritesGe (resolveBlocker st blockerId summary now) (st.writes + 1) ∧
      (logProgressMilestone st pargs id now).writes = st.writes + 1 ∧
      (saveBusinessState st sargs id now todayStart).writes = st.writes + 1 ∧
      (autoSaveTick st now).writes
        = (if 30000 < now - st.lastAutoSave ∧ st.data.session_metadata.auto_save_enabled
            then st.writes + 1 else st.writes) ∧
      (stopServer st now).writes = st.writes + 1 := by
  refine ⟨rfl, updateServicePerformance_writes_ge st uargs id now,
    recordTransaction_writes_ge st targs id now todayStart, rfl, rfl,
    logConversationTurn_writes st cargs id mkId now, rfl,
    resolveBlocker_writes_ge st blockerId summary now, rfl, rfl, ?_, rfl⟩
  unfold autoSaveTick saveData
  split
  · rfl
  · rfl

/-- Registration arguments used by the C3 counterexample. -/
def c3RegArgs : RegisterServiceArgs :=
  { name := "qr generator"
    stype := "api"
    max_daily_spend := none
    auto_scale := none }

/-- Counterexample for C3 as stated: a single `register_service` mutation on
a fresh store performs a durable write itself (one `fs.writeFileSync`,
`writes` goes from 0 to 1), contradicting "no mutating operation ever
performs a blocking durable-storage write". -/
theorem c3_register_writes_counterexample :
    (initialState "s0" 0).writes = 0 ∧
      (registerService (initialState "s0" 0) c3RegArgs "svc9" 50).writes = 1 :=
  ⟨rfl, rfl⟩

theorem conversationDecisions_fields (terms : List String) (mkId : Nat → String) (k : Nat)
    (now : Int) :
    ∀ d ∈ conversationDecisions terms mkId k now,
      d.decision_type = "conversation_decision" ∧ d.outcome = Outcome.auto_approved := by
  induction terms generalizing k with
  | nil =>
    intro d hd
    simp [conversationDecisions] at hd
  | cons t rest ih =>
    intro d hd
    simp only [conversationDecisions] at hd
    rcases List.mem_cons.mp hd with rfl | hd
    · exact ⟨rfl, rfl⟩
    · exact ih (k + 1) d hd

/-- C5 (amended): logging an interaction whose combined text matches at
least one decision-family and one blocker-family term stores an
`InteractionRecord` whose `decisions_made` and `blockers_identified` are
both non-empty and whose `context_type` follows the fixed priority order,
and appends exactly one auxiliary `conversation_decision` Decision per
matched decision term through the shared logging path; but it appends NO
auxiliary Blocker records — `logConversationTurn` only ever fires the
`decision_made` trigger, so the blocker branch of `autoCaptureContext` is
never reached from this path. -/
theorem c5_conversation_extraction (st : ServerState) (ui ar turnId : String)
    (mkId : Nat → String) (now : Int)
    (hd : (extractEntitiesFromConversation ui ar).decisions_made ≠ [])
    (hb : (extractEntitiesFromConversation ui ar).blockers_identified ≠ []) :
    (logConversationTurn st (plainConversationArgs ui ar) turnId mkId now).data.conversation_turns
        = st.data.conversation_turns
          ++ [mkConversationTurn st (plainConversationArgs ui ar) turnId now] ∧
      (mkConversationTurn st (plainConversationArgs ui ar) turnId now).extracted_entities
        = extractEntitiesFromConversation ui ar ∧
      (mkConversationTurn st (plainConversationArgs ui ar) turnId
          now).extracted_entities.decisions_made ≠ [] ∧
      (mkConversationTurn st (plainConversationArgs ui ar) turnId
          now).extracted_entities.blockers_identified ≠ [] ∧
      (mkConversationTurn st (plainConversationArgs ui ar) turnId now).context_type
        = inferContextType ui ar ∧
      (logConversationTurn st (plainConversationArgs ui ar) turnId mkId now).data.decisions
        = st.data.decisions
          ++ conversationDecisions (extractEntitiesFromConversation ui ar).decisions_made
              mkId 0 now ∧
      (conversationDecisions (extractEntitiesFromConversation ui ar).decisions_made
          mkId 0 now).length
        = (extractEntitiesFromConversation ui ar).decisions_made.length ∧
      (logConversationTurn st (plainConversationArgs ui ar) turnId mkId now).data.blockers
        = st.data.blockers ∧
      ∀ d ∈ conversationDecisions (extractEntitiesFromConversation ui ar).decisions_made
          mkId 0 now,
        d.decision_type = "conversation_decision" ∧ d.outcome = Outcome.auto_approved := by
  refine ⟨?_, rfl, hd, hb, rfl, ?_, conversationDecisions_length _ _ _ _, ?_,
    conversationDecisions_fields _ _ _ _⟩
  · simp only [logConversationTurn, autoCaptureContext]
    rw [(logConversationDecisions_spec _ _ _ _ _).2.2.1]
    simp [saveData]
  · simp only [logConversationTurn, autoCaptureContext]
    rw [(logConversationDecisions_spec _ _ _ _ _).1]
    simp only [saveData]
    rfl
  · simp only [logConversationTurn, autoCaptureContext]
    rw [(logConversationDecisions_spec _ _ _ _ _).2.1]
    simp [saveData]

/-- Deterministic id source used in the C5 scenario. -/
def c5MkId : Nat → String := fun k => "cd" ++ toString k

/-- Counterexample for C5 as stated: the interaction text matches the
blocker term `error` (and the decision term `decided`), yet after
`log_conversation_turn` the blocker collection is still empty — no
auxiliary Blocker record is appended, against the claimed "exactly one
auxiliary Blocker record per matched blocker term". -/
theorem c5_no_blocker_counterexample :
    (extractEntitiesFromConversation "i decided" "there is an error").decisions_made
        = ["decided"] ∧
      (extractEntitiesFromConversation "i decided" "there is an error").blockers_identified
        = ["error"] ∧
      (logConversationTurn (initialState "s0" 0)
          (plainConversationArgs "i decided" "there is an error") "t1" c5MkId 10).data.blockers
        = [] :=
  ⟨rfl, rfl, rfl⟩

/-- Witness for C5 (amended) on the spec's concrete scenario: text
containing "decided" and "error". -/
theorem c5_conversation_extraction_witness :
    (logConversationTurn (initialState "s0" 0)
        (plainConversationArgs "i decided" "there is an error") "t1" c5MkId
        10).data.conversation_turns
      = (initialState "s0" 0).data.conversation_turns
        ++ [mkConversationTurn (initialState "s0" 0)
            (plainConversationArgs "i decided" "there is an error") "t1" 10] ∧
    (mkConversationTurn (initialState "s0" 0)
        (plainConversationArgs "i decided" "there is an error") "t1" 10).context_type
      = inferContextType "i decided" "there is an error" ∧
    (logConversationTurn (initialState "s0" 0)
        (plainConversationArgs "i decided" "there is an error") "t1" c5MkId 10).data.decisions
      = (initialState "s0" 0).data.decisions
        ++ conversationDecisions
            (extractEntitiesFromConversation "i decided" "there is an error").decisions_made
            c5MkId 0 10 ∧
    (logConversationTurn (initialState "s0" 0)
        (plainConversationArgs "i decided" "there is an error") "t1" c5MkId 10).data.blockers
      = (initialState "s0" 0).data.blockers := by
  obtain ⟨h1, h2, h3, h4, h5, h6, h7, h8, h9⟩ :=
    c5_conversation_extraction (initialState "s0" 0) "i decided" "there is an error" "t1"
      c5MkId 10 (by decide) (by decide)
  exact ⟨h1, h5, h6, h8⟩

/-- The profit-potential sort key, absent potentials reading as 0. -/
def ppKey (o : MarketOpportunity) : ℚ :=
  o.profit_potential.getD 0

/-- The opportunity has a present, nonzero (JS-truthy) profit potential. -/
def hasNonzeroProfit (o : MarketOpportunity) : Prop :=
  ∃ p, o.profit_potential = some p ∧ p ≠ 0

/-- Spec-side ordering predicate: the list is ordered by descending profit
potential. -/
def profitDescending (l : List MarketOpportunity) : Prop :=
  l.Pairwise (fun a b => ppKey b ≤ ppKey a)

/-- Spec-side predicate for the claim's "nulls sort last": no opportunity
without a profit potential ever precedes one that has one. -/
def profitNullsLast (l : List MarketOpportunity) : Prop :=
  l.Pairwise (fun a b => a.profit_potential = none → b.profit_potential = none)

theorem marketCompare_nonpos (a b : MarketOpportunity)
    (ha : hasNonzeroProfit a) (hb : hasNonzeroProfit b) :
    marketCompare a b ≤ 0 ↔ ppKey b ≤ ppKey a := by
  obtain ⟨x, hx, hx0⟩ := ha
  obtain ⟨y, hy, hy0⟩ := hb
  simp [marketCompare, hx, hy, hx0, hy0, ppKey, sub_nonpos]

theorem pairwise_orderedInsert_pp (x : MarketOpportunity) (l : List MarketOpportunity)
    (hx : hasNonzeroProfit x) (hl : ∀ o ∈ l, hasNonzeroProfit o)
    (hp : List.Pairwise (fun a b => ppKey b ≤ ppKey a) l) :
    List.Pairwise (fun a b => ppKey b ≤ ppKey a)
      (List.orderedInsert (fun a b => marketCompare a b ≤ 0) x l) := by
  induction l with
  | nil => simp [List.orderedInsert]
  | cons y ys ih =>
    have hy : hasNonzeroProfit y := hl y (List.mem_cons_self y ys)
    have hys : ∀ o ∈ ys, hasNonzeroProfit o := fun o ho => hl o (List.mem_cons_of_mem _ ho)
    rcases List.pairwise_cons.mp hp with ⟨hyall, hpys⟩
    by_cases hr : marketCompare x y ≤ 0
    · rw [List.orderedInsert, if_pos hr]
      refine List.pairwise_cons.mpr ⟨?_, hp⟩
      intro z hz
      rcases List.mem_cons.mp hz with rfl | hz
      · exact (marketCompare_nonpos x z hx hy).mp hr
      · exact le_trans (hyall z hz) ((marketCompare_nonpos x y hx hy).mp hr)
    · rw [List.orderedInsert, if_neg hr]
      refine List.pairwise_cons.mpr ⟨?_, ih hys hpys⟩
      intro z hz
      rcases (List.mem_orderedInsert _).mp hz with rfl | hz
      · exact le_of_not_le (fun hcon => hr ((marketCompare_nonpos z y hx hy).mpr hcon))
      · exact hyall z hz

theorem pairwise_insertionSort_pp (l : List MarketOpportunity)
    (hl : ∀ o ∈ l, hasNonzeroProfit o) :
    List.Pairwise (fun a b => ppKey b ≤ ppKey a) (jsSort marketCompare l) := by
  induction l with
  | nil => simp [jsSort, List.insertionSort]
  | cons x xs ih =>
    have hxs : ∀ o ∈ xs, hasNonzeroProfit o := fun o ho => hl o (List.mem_cons_of_mem _ ho)
    simp only [jsSort, List.insertionSort] at ih ⊢
    refine pairwise_orderedInsert_pp x _ (hl x (List.mem_cons_self x xs)) ?_ (ih hxs)
    intro o ho
    exact hxs o ((List.perm_insertionSort _ xs).mem_iff.mp ho)

/-- C6 (amended): `get_market_opportunities` sorts with a comparator that
orders by descending `profit_potential` only when BOTH elements carry a
truthy (present, nonzero) one, falling back to descending `created_at`
otherwise; so when every stored opportunity has a nonzero profit potential
the returned list is ordered by descending profit potential, but absent
potentials are NOT pushed to the end (see the counterexample). -/
theorem c6_profit_ranking (st : ServerState) (status : Option OpportunityStatus)
    (limit : Option Nat)
    (h : ∀ o ∈ st.data.market_opportunities, hasNonzeroProfit o) :
    profitDescending (getMarketOpportunities st status limit) := by
  unfold getMarketOpportunities profitDescending
  rcases status with _ | f <;> rcases limit with _ | n
  · exact pairwise_insertionSort_pp _ h
  · dsimp only
    split
    · exact List.Pairwise.sublist (List.take_sublist _ _) (pairwise_insertionSort_pp _ h)
    · exact pairwise_insertionSort_pp _ h
  · exact pairwise_insertionSort_pp _ (fun o ho => h o (List.mem_of_mem_filter ho))
  · dsimp only
    split
    · exact List.Pairwise.sublist (List.take_sublist _ _)
        (pairwise_insertionSort_pp _ (fun o ho => h o (List.mem_of_mem_filter ho)))
    · exact pairwise_insertionSort_pp _ (fun o ho => h o (List.mem_of_mem_filter ho))

/-- An opportunity with a profit potential, discovered first. -/
def oppWithProfit : MarketOpportunity :=
  { id := "oA"
    opportunity_type := "qr api tier"
    market_size := none
    competition_level := none
    profit_potential := some 100
    implementation_effort := none
    discovery_source := none
    analysis_data := []
    status := OpportunityStatus.discovered
    created_at := 1 }

/-- An opportunity without a profit potential, discovered later. -/
def oppNoProfit : MarketOpportunity :=
  { id := "oB"
    opportunity_type := "webhook relay"
    market_size := none
    competition_level := none
    profit_potential := none
    implementation_effort := none
    discovery_source := none
    analysis_data := []
    status := OpportunityStatus.discovered
    created_at := 2 }

/-- The C6 counterexample store: one valued and one unvalued opportunity. -/
def c6State : ServerState :=
  { data := { emptyRevBotData "s0" 0 with
      market_opportunities := [oppWithProfit, oppNoProfit] }
    lastAutoSave := 0
    writes := 0 }

/-- Counterexample for C6 as stated: with one valued and one unvalued
opportunity the comparator falls back to descending discovery time (both
truthiness checks must pass), so the opportunity WITHOUT a profit potential
is returned first — absent potentials do not sort last. -/
theorem c6_nulls_first_counterexample :
    getMarketOpportunities c6State none none = [oppNoProfit, oppWithProfit] ∧
      oppNoProfit.profit_potential = none ∧
      oppWithProfit.profit_potential = some 100 ∧
      ¬ profitNullsLast (getMarketOpportunities c6State none none) := by
  have hsort : getMarketOpportunities c6State none none = [oppNoProfit, oppWithProfit] := by
    norm_num [getMarketOpportunities, jsSort, List.insertionSort, List.orderedInsert,
      marketCompare, oppWithProfit, oppNoProfit, c6State, emptyRevBotData]
  refine ⟨hsort, rfl, rfl, ?_⟩
  rw [hsort]
  intro hcon
  rcases List.pairwise_cons.mp hcon with ⟨h1, _⟩
  have h2 := h1 oppWithProfit (List.mem_singleton.mpr rfl) rfl
  simp [oppWithProfit] at h2

/-- A second valued opportunity, smaller potential, discovered later. -/
def oppSmallProfit : MarketOpportunity :=
  { id := "oC"
    opportunity_type := "badge printing"
    market_size := none
    competition_level := none
    profit_potential := some 50
    implementation_effort := none
    discovery_source := none
    analysis_data := []
    status := OpportunityStatus.discovered
    created_at := 5 }

/-- The C6 witness store: every opportunity has a nonzero profit potential. -/
def c6WitnessState : ServerState :=
  { data := { emptyRevBotData "s0" 0 with
      market_opportunities := [oppSmallProfit, oppWithProfit] }
    lastAutoSave := 0
    writes := 0 }

/-- Witness for C6 (amended): with all potentials present and nonzero the
result is ordered by descending profit potential. -/
theorem c6_profit_ranking_witness :
    profitDescending (getMarketOpportunities c6WitnessState none none) := by
  refine c6_profit_ranking c6WitnessState none none ?_
  intro o ho
  simp [c6WitnessState, emptyRevBotData] at ho
  rcases ho with rfl | rfl
  · exact ⟨50, rfl, by norm_num⟩
  · exact ⟨100, rfl, by norm_num⟩

end RevBot
